import Mathlib

/-!
Verification of the XPermutas ledger settlement engine, referral bonus
issuer and code generators, as implemented in the SQL migration files of
the repository (`supabase/migrations/*.sql` and the unnamed migration
scripts).  Monetary columns are `NUMERIC(10,2)` / `NUMERIC(12,2)` values
carrying at most two fractional digits; they are embedded as integers
denominated in cents, on which `LEAST`, `GREATEST`, `+` and `-` are exact,
just as they are on two-digit decimals of this range.  Strings built by
the code generators are embedded as `List Char`.
-/

/-- The `transaction_status` enum: `('pending', 'completed', 'cancelled')`. -/
inductive TxStatus
  | pending
  | completed
  | cancelled
deriving DecidableEq, Repr

/-- One row of `public.users`, restricted to the columns the ledger logic
reads or writes: `balance_xs`, `balance_bonus`, `debt_xs` (cents),
`referred_by`, `referral_bonus_paid`, `updated_at`. -/
structure UserRow where
  balance_xs : Int
  balance_bonus : Int
  debt_xs : Int
  referred_by : Option Nat
  referral_bonus_paid : Bool
  updated_at : Int
deriving DecidableEq, Repr

/-- One row of `public.transactions`, restricted to the columns the
settlement logic reads or writes. -/
structure TransactionRow where
  buyer_id : Nat
  seller_id : Nat
  amount : Int
  voucher : List Char
  status : TxStatus
  completed_at : Option Int
deriving DecidableEq, Repr

/-- The `users` table as a total map from user id to row (every account
referenced by a transaction exists, per the foreign keys on
`buyer_id`/`seller_id`). -/
def LedgerState := Nat → UserRow

/-- `UPDATE public.users SET ... WHERE id = i`: replace the row of user `i`. -/
def setUser (s : LedgerState) (i : Nat) (u : UserRow) : LedgerState :=
  fun j => if j = i then u else s j

/-- `handle_debt_repayment()` from `20250720113429_initial_schema.sql`
(lines 157-189), the settlement trigger of the latest schema
(`AFTER UPDATE OF status ON transactions`): when the row transitions to
`completed` from a different status, amortize
`repayment_amount := LEAST(NEW.amount, seller_debt)` off the seller's
`debt_xs` and credit the remainder `NEW.amount - repayment_amount` to
the seller's `balance_xs`; with no debt, credit the full amount.
No other row or column is written. -/
def handle_debt_repayment (old new : TransactionRow) (s : LedgerState) :
    LedgerState :=
  if new.status = TxStatus.completed ∧ old.status ≠ TxStatus.completed then
    let seller_debt := (s new.seller_id).debt_xs
    if seller_debt > 0 then
      let repayment_amount := min new.amount seller_debt
      setUser s new.seller_id
        { s new.seller_id with
          debt_xs := (s new.seller_id).debt_xs - repayment_amount
          balance_xs := (s new.seller_id).balance_xs
            + (new.amount - repayment_amount) }
    else
      setUser s new.seller_id
        { s new.seller_id with
          balance_xs := (s new.seller_id).balance_xs + new.amount }
  else s

/-- `handle_seller_on_transaction_complete()` from the consolidated
"[FINAL & CONSOLIDATED] Full Database Reset" script (the second document
of `20250101000007_referral_system_and_security_fix.sql`, lines 278-314):
same amortization as `handle_debt_repayment`, computed as
`payment_to_debt := LEAST(NEW.amount, seller_debt)` and
`remaining_amount := NEW.amount - payment_to_debt`, with `updated_at`
also refreshed on the seller row. -/
def handle_seller_on_transaction_complete_final (old new : TransactionRow)
    (now : Int) (s : LedgerState) : LedgerState :=
  if new.status = TxStatus.completed ∧ old.status ≠ TxStatus.completed then
    let seller_debt := (s new.seller_id).debt_xs
    if seller_debt > 0 then
      let payment_to_debt := min new.amount seller_debt
      let remaining_amount := new.amount - payment_to_debt
      setUser s new.seller_id
        { s new.seller_id with
          debt_xs := (s new.seller_id).debt_xs - payment_to_debt
          balance_xs := (s new.seller_id).balance_xs + remaining_amount
          updated_at := now }
    else
      setUser s new.seller_id
        { s new.seller_id with
          balance_xs := (s new.seller_id).balance_xs + new.amount
          updated_at := now }
  else s

/-- `amortize_loan_on_sale()` from the "Final Reset Script" (second
document of the unnamed part_000 file, lines 185-226): an older
settlement variant.  It amortizes the seller's debt in one `UPDATE`,
credits any remainder in a second `UPDATE` (only when
`NEW.amount > amortization_amount`), and then additionally debits the
buyer's `balance_xs` by the full `NEW.amount`. -/
def amortize_loan_on_sale (old new : TransactionRow) (s : LedgerState) :
    LedgerState :=
  if new.status = TxStatus.completed ∧ old.status ≠ TxStatus.completed then
    let seller_debt := (s new.seller_id).debt_xs
    let s1 :=
      if seller_debt > 0 then
        let amortization_amount := min new.amount seller_debt
        let s2 := setUser s new.seller_id
          { s new.seller_id with
            debt_xs := (s new.seller_id).debt_xs - amortization_amount }
        if new.amount > amortization_amount then
          setUser s2 new.seller_id
            { s2 new.seller_id with
              balance_xs := (s2 new.seller_id).balance_xs
                + (new.amount - amortization_amount) }
        else s2
      else
        setUser s new.seller_id
          { s new.seller_id with
            balance_xs := (s new.seller_id).balance_xs + new.amount }
    setUser s1 new.buyer_id
      { s1 new.buyer_id with
        balance_xs := (s1 new.buyer_id).balance_xs - new.amount }
  else s

/-- `process_transaction_amortization()` from the "XPermutas Platform
Database Schema" script (third document of
`20250101000007_referral_system_and_security_fix.sql`, lines 905-921):
fires on `pending` → `completed`; one `UPDATE` on the seller row sets
`debt_xs = GREATEST(0, debt_xs - NEW.amount)` and conditionally credits
`balance_xs` with `NEW.amount - debt_xs`; both column references on the
right-hand side read the pre-update row, as SQL `UPDATE` does. -/
def process_transaction_amortization (old new : TransactionRow)
    (s : LedgerState) : LedgerState :=
  if new.status = TxStatus.completed ∧ old.status = TxStatus.pending then
    let u := s new.seller_id
    setUser s new.seller_id
      { u with
        debt_xs := max 0 (u.debt_xs - new.amount)
        balance_xs :=
          if u.debt_xs ≥ new.amount then u.balance_xs
          else u.balance_xs + (new.amount - u.debt_xs) }
  else s

/-- The `TG_OP = 'INSERT' OR NEW.status IS DISTINCT FROM OLD.status` part
of the guard of the `BEFORE INSERT OR UPDATE` settlement variant: on an
insert (`old = none`) it is true, on an update it compares the statuses. -/
def tg_status_changed (old : Option TransactionRow) (new : TransactionRow) :
    Bool :=
  match old with
  | none => true
  | some o => decide (new.status ≠ o.status)

/-- `handle_seller_on_transaction_complete()` from the "Esquema Inicial
Versão 2.0" script (third document of
`20250101000007_referral_system_and_security_fix.sql`, lines 579-617), a
`BEFORE INSERT OR UPDATE` trigger: when the row first becomes
`completed`, it amortizes the seller's debt in one `UPDATE` and sets
`NEW.completed_at := now()` on the row being written; it returns the
(possibly modified) row together with the updated users table. -/
def handle_seller_on_transaction_complete_v2 (old : Option TransactionRow)
    (new : TransactionRow) (now : Int) (s : LedgerState) :
    TransactionRow × LedgerState :=
  if new.status = TxStatus.completed ∧ tg_status_changed old new = true then
    let seller_current_debt := (s new.seller_id).debt_xs
    let s1 :=
      if seller_current_debt > 0 then
        let amortization_amount := min seller_current_debt new.amount
        let remaining_sale_amount := new.amount - amortization_amount
        setUser s new.seller_id
          { s new.seller_id with
            debt_xs := (s new.seller_id).debt_xs - amortization_amount
            balance_xs := (s new.seller_id).balance_xs
              + remaining_sale_amount }
      else
        setUser s new.seller_id
          { s new.seller_id with
            balance_xs := (s new.seller_id).balance_xs + new.amount }
    ({ new with completed_at := some now }, s1)
  else (new, s)

/-- A completion request under the latest schema
(`20250720113429_initial_schema.sql`): a plain
`UPDATE transactions SET status = 'completed'` — nothing else in the
repository writes `completed_at` — followed by the `AFTER UPDATE`
trigger `handle_debt_repayment`, which (being an `AFTER` trigger)
cannot modify the row.  The stored row is exactly the update's result. -/
def complete_transaction_sch2 (tx : TransactionRow) (s : LedgerState) :
    TransactionRow × LedgerState :=
  let updated := { tx with status := TxStatus.completed }
  (updated, handle_debt_repayment tx updated s)

/-- `grant_referral_bonus(approved_user_id)` from
`20250101000007_referral_system_and_security_fix.sql` (lines 41-83).
The two bonus amounts are the `referrer` and `referee` fields of the
`system_settings` row with key `referral_bonus` (seeded as 5.00 € and
2.50 € in the unnamed part_004 script), passed here as parameters.
The function returns immediately when `referral_bonus_paid` is already
set; otherwise, when a referrer exists, it credits the referrer's and
then the approved user's `balance_bonus` and finally sets
`referral_bonus_paid = TRUE`; with no referrer nothing is written. -/
def grant_referral_bonus (referrer_bonus_amount referee_bonus_amount : Int)
    (approved_user_id : Nat) (s : LedgerState) : LedgerState :=
  if (s approved_user_id).referral_bonus_paid then s
  else
    match (s approved_user_id).referred_by with
    | none => s
    | some referrer_id =>
      let s1 := setUser s referrer_id
        { s referrer_id with
          balance_bonus := (s referrer_id).balance_bonus
            + referrer_bonus_amount }
      let s2 := setUser s1 approved_user_id
        { s1 approved_user_id with
          balance_bonus := (s1 approved_user_id).balance_bonus
            + referee_bonus_amount }
      setUser s2 approved_user_id
        { s2 approved_user_id with referral_bonus_paid := true }

/-- The sixteen characters a hexadecimal `md5(...)::text` digest is made
of. -/
def hex_lower : List Char := "0123456789abcdef".toList

/-- The alphabet of `generate_referral_code` in the unnamed part_004
script: the 26 uppercase letters followed by the 10 digits. -/
def referral_alphabet : List Char :=
  "ABCDEFGHIJKLMNOPQRSTUVWXYZ0123456789".toList

/-- A character is uppercase alphanumeric: `A`-`Z` or `0`-`9`. -/
def is_upper_alnum (c : Char) : Bool :=
  ('A' ≤ c && c ≤ 'Z') || ('0' ≤ c && c ≤ '9')

/-- `upper(substr(md5(random()::text), 0, 7))`: in PostgreSQL
`substr(s, 0, 7)` yields the first six characters (positions 1-6 of the
seven counted from position 0), so the candidate is the first six digest
characters uppercased. -/
def md5_candidate6 (seed : List Char) : List Char :=
  (seed.take 6).map Char.toUpper

/-- `upper(substr(md5(random()::text), 0, 9))`: the first eight digest
characters uppercased (the source comments it as an 8-character code). -/
def md5_candidate8 (seed : List Char) : List Char :=
  (seed.take 8).map Char.toUpper

/-- `generate_unique_referral_code()` from
`20250101000000_initial_schema.sql` (lines 30-44): loop drawing a fresh
`md5` digest each round, forming the six-character candidate, and
returning the first candidate not present among the existing
`referral_code` values.  The successive digests are passed as `seeds`;
`none` models the loop never finding a free candidate along `seeds`. -/
def generate_unique_referral_code (seeds : List (List Char))
    (existing : List (List Char)) : Option (List Char) :=
  (seeds.map md5_candidate6).find? (fun c => decide (c ∉ existing))

/-- The eight-character variant of the same loop:
`generate_referral_code()` of `20250720113429_initial_schema.sql`
(lines 43-57) and `generate_unique_referral_code()` of the consolidated
script in `20250101000007_...sql` (lines 163-177). -/
def generate_unique_referral_code8 (seeds : List (List Char))
    (existing : List (List Char)) : Option (List Char) :=
  (seeds.map md5_candidate8).find? (fun c => decide (c ∉ existing))

/-- `generate_referral_code()` from the unnamed part_004 script
(lines 53-75): each round shuffles the 36-character alphabet
(`ORDER BY random() LIMIT 8`) and concatenates the first eight
characters; the shuffled alphabets are passed as `shuffles`, and the
first candidate absent from the existing codes is returned. -/
def generate_referral_code_shuffled (shuffles : List (List Char))
    (existing : List (List Char)) : Option (List Char) :=
  (shuffles.map (List.take 8)).find? (fun c => decide (c ∉ existing))

/-- `generate_referral_code()` from the "Final Reset Script" in the
unnamed part_000 file (lines 106-113), a `BEFORE INSERT` trigger on
`users`: `NEW.referral_code := 'XP-' || substr(md5(random()::text), 0, 7)`
— the literal `XP-` followed by the first six digest characters, with no
uppercasing and no uniqueness loop. -/
def generate_referral_code_xp (seed : List Char) : List Char :=
  ['X', 'P', '-'] ++ seed.take 6

/-- Sequential generation of one code per element of `seedss`, inserting
each returned code into the uniqueness scope before the next round, as a
sequence of user inserts does via the `referral_code` column. -/
def generate_codes_seq : List (List (List Char)) → List (List Char) →
    Option (List (List Char))
  | [], _ => some []
  | seeds :: rest, existing =>
    match generate_unique_referral_code seeds existing with
    | none => none
    | some c =>
      match generate_codes_seq rest (c :: existing) with
      | none => none
      | some cs => some (c :: cs)

/-- Error kinds surfaced by the storage layer. -/
inductive LedgerError
  | validationError
  | conflictError
  | notFoundError
deriving DecidableEq, Repr

/-- The persistent state a transaction insert acts on. -/
structure MarketDB where
  accounts : LedgerState
  txs : List TransactionRow

/-- Creating a transaction under the latest schema
(`20250720113429_initial_schema.sql`, lines 121-135): an `INSERT` into
`transactions` checked by `CONSTRAINT buyer_seller_check CHECK
(buyer_id <> seller_id)` (the consolidated part_002 script names the
same check `buyer_seller_different`); a violating insert is rejected
with nothing written, otherwise the `pending` row is stored. -/
def create_transaction (buyer seller : Nat) (amount : Int)
    (voucher : List Char) (db : MarketDB) : Except LedgerError MarketDB :=
  if buyer = seller then Except.error LedgerError.validationError
  else Except.ok
    { db with txs :=
        { buyer_id := buyer, seller_id := seller, amount := amount,
          voucher := voucher, status := TxStatus.pending,
          completed_at := none } :: db.txs }

/-- An all-zero user row (the state every account is created with). -/
def uZ : UserRow :=
  { balance_xs := 0, balance_bonus := 0, debt_xs := 0, referred_by := none,
    referral_bonus_paid := false, updated_at := 0 }

-- ===== concrete fixtures used by witnesses and counterexamples =====

/-- Scenario-B seller state: seller 1 owes 40.00 X$ and holds 10.00 X$. -/
def sW1 : LedgerState :=
  fun i => if i = 1 then { uZ with debt_xs := 4000, balance_xs := 1000 }
           else uZ

/-- Transaction fixture: buyer 0, seller 1, amount 100.00 X$, pending. -/
def txP : TransactionRow :=
  { buyer_id := 0, seller_id := 1, amount := 10000, voucher := [],
    status := TxStatus.pending, completed_at := none }

/-- The same row after the status update to `completed`. -/
def txC : TransactionRow := { txP with status := TxStatus.completed }

/-- Post-first-settlement state of Scenario B. -/
def sW2 : LedgerState :=
  fun i => if i = 1 then { uZ with debt_xs := 0, balance_xs := 7000 }
           else uZ

/-- Buyer 0 holds 50.00 X$; seller 1 owes 40.00 X$ and holds 10.00 X$. -/
def sW3 : LedgerState :=
  fun i => if i = 0 then { uZ with balance_xs := 5000 }
           else if i = 1 then { uZ with debt_xs := 4000, balance_xs := 1000 }
           else uZ

/-- Scenario-D state: user 2 was referred by user 3, bonus not yet paid. -/
def sW4 : LedgerState :=
  fun i => if i = 2 then { uZ with referred_by := some 3 } else uZ

/-- State with user 4 approved without a referrer, bonus not yet paid. -/
def sW10 : LedgerState :=
  fun i => if i = 4 then uZ else uZ

/-- An empty marketplace database. -/
def dbW : MarketDB := { accounts := fun _ => uZ, txs := [] }

/-- `dbW` after a successful insert of a buyer-0/seller-1 transaction. -/
def dbW1 : MarketDB :=
  { accounts := fun _ => uZ,
    txs := [{ buyer_id := 0, seller_id := 1, amount := 10000, voucher := [],
              status := TxStatus.pending, completed_at := none }] }

/-- Two md5-digest seeds (truncated to the six characters the candidate
uses) whose candidates are `AAAAAA` and `BBBBBB`. -/
def seedsW : List (List Char) := ["aaaaaa".toList, "bbbbbb".toList]

/-- A uniqueness scope pre-seeded with the first candidate `AAAAAA`,
forcing the generator to retry. -/
def existingW : List (List Char) := ["AAAAAA".toList]

/-- A concrete 32-character md5 digest (the digest of the empty string). -/
def md5_example : List Char := "d41d8cd98f00b204e9800998ecf8427e".toList

-- ===== helper lemmas =====

theorem setUser_same (s : LedgerState) (i : Nat) (u : UserRow) :
    setUser s i u i = u := by
  simp [setUser]

theorem setUser_other (s : LedgerState) (i : Nat) (u : UserRow) (j : Nat)
    (h : j ≠ i) : setUser s i u j = s j := by
  simp [setUser, h]

theorem setUser_bonus_frame (s : LedgerState) (i : Nat) (u : UserRow)
    (h : u.balance_bonus = (s i).balance_bonus) (j : Nat) :
    ((setUser s i u) j).balance_bonus = (s j).balance_bonus := by
  by_cases hj : j = i
  · subst hj; rw [setUser_same, h]
  · rw [setUser_other s i u j hj]

-- ===== C1 =====

/-- C1: for a seller with `outstandingDebt = D ≥ 0` and a settling
transaction of `amount = A > 0` (a transition to `completed` from a
different status), both the latest settlement trigger
`handle_debt_repayment` and the consolidated
`handle_seller_on_transaction_complete` leave the seller with
`outstandingDebt = D - min A D` and
`spendableBalance = spendableBalance + max (A - D) 0`, exactly. -/
theorem amortization_correctness (old new : TransactionRow) (now : Int)
    (s : LedgerState)
    (hnew : new.status = TxStatus.completed)
    (hold : old.status ≠ TxStatus.completed)
    (hD : 0 ≤ (s new.seller_id).debt_xs)
    (hA : 0 < new.amount) :
    ((handle_debt_repayment old new s) new.seller_id).debt_xs
        = (s new.seller_id).debt_xs
          - min new.amount (s new.seller_id).debt_xs
    ∧ ((handle_debt_repayment old new s) new.seller_id).balance_xs
        = (s new.seller_id).balance_xs
          + max (new.amount - (s new.seller_id).debt_xs) 0
    ∧ ((handle_seller_on_transaction_complete_final old new now s)
          new.seller_id).debt_xs
        = (s new.seller_id).debt_xs
          - min new.amount (s new.seller_id).debt_xs
    ∧ ((handle_seller_on_transaction_complete_final old new now s)
          new.seller_id).balance_xs
        = (s new.seller_id).balance_xs
          + max (new.amount - (s new.seller_id).debt_xs) 0 := by
  have hguard : new.status = TxStatus.completed
      ∧ old.status ≠ TxStatus.completed := ⟨hnew, hold⟩
  unfold handle_debt_repayment handle_seller_on_transaction_complete_final
  rw [if_pos hguard, if_pos hguard]
  by_cases hpos : (s new.seller_id).debt_xs > 0
  · simp only [if_pos hpos, setUser_same]
    refine ⟨?_, ?_, ?_, ?_⟩ <;> first | trivial | omega
  · simp only [if_neg hpos, setUser_same]
    refine ⟨?_, ?_, ?_, ?_⟩ <;> first | trivial | omega

/-- Witness for C1: Scenario B (debt 40.00 X$, amount 100.00 X$ →
debt 0.00, balance credited 60.00 X$), in cents. -/
theorem amortization_correctness_witness :
    (txC.status = TxStatus.completed ∧ txP.status ≠ TxStatus.completed
      ∧ 0 ≤ (sW1 txC.seller_id).debt_xs ∧ 0 < txC.amount)
    ∧ ((handle_debt_repayment txP txC sW1) txC.seller_id).debt_xs
        = (sW1 txC.seller_id).debt_xs
          - min txC.amount (sW1 txC.seller_id).debt_xs
    ∧ ((handle_debt_repayment txP txC sW1) txC.seller_id).balance_xs
        = (sW1 txC.seller_id).balance_xs
          + max (txC.amount - (sW1 txC.seller_id).debt_xs) 0 := by
  have h := amortization_correctness txP txC 0 sW1 rfl (by decide)
    (by decide) (by decide)
  refine ⟨⟨?_, ?_, ?_, ?_⟩, h.1, h.2.1⟩ <;> decide

-- ===== C2 =====

/-- C2: settlement fires at most once per record.  Every settlement
variant conditions on the transition's previous status, so any update of
a record whose status is already `completed` — a repeated completion
request included — leaves the whole users table untouched, for the
latest trigger `handle_debt_repayment`, the consolidated
`handle_seller_on_transaction_complete`, the older
`amortize_loan_on_sale`, and `process_transaction_amortization`. -/
theorem settlement_at_most_once (old new : TransactionRow) (now : Int)
    (s : LedgerState) (h : old.status = TxStatus.completed) :
    handle_debt_repayment old new s = s
    ∧ handle_seller_on_transaction_complete_final old new now s = s
    ∧ amortize_loan_on_sale old new s = s
    ∧ process_transaction_amortization old new s = s := by
  refine ⟨?_, ?_, ?_, ?_⟩
  · simp [handle_debt_repayment, h]
  · simp [handle_seller_on_transaction_complete_final, h]
  · simp [amortize_loan_on_sale, h]
  · simp [process_transaction_amortization, h]

/-- Witness for C2: re-running the trigger on an already-completed row
over the post-settlement state of Scenario B changes nothing. -/
theorem settlement_at_most_once_witness :
    txC.status = TxStatus.completed
    ∧ handle_debt_repayment txC txC sW2 = sW2 := by
  have h := settlement_at_most_once txC txC 0 sW2 rfl
  exact ⟨rfl, h.1⟩

-- ===== frame helper lemmas for the settlement variants =====

theorem handle_debt_repayment_frame (old new : TransactionRow)
    (s : LedgerState) (j : Nat) (hj : j ≠ new.seller_id) :
    (handle_debt_repayment old new s) j = s j := by
  unfold handle_debt_repayment
  by_cases hg : new.status = TxStatus.completed
      ∧ old.status ≠ TxStatus.completed
  · rw [if_pos hg]
    dsimp only
    by_cases hd : (s new.seller_id).debt_xs > 0
    · rw [if_pos hd]; exact setUser_other _ _ _ _ hj
    · rw [if_neg hd]; exact setUser_other _ _ _ _ hj
  · rw [if_neg hg]

theorem hs_final_frame (old new : TransactionRow) (now : Int)
    (s : LedgerState) (j : Nat) (hj : j ≠ new.seller_id) :
    (handle_seller_on_transaction_complete_final old new now s) j = s j := by
  unfold handle_seller_on_transaction_complete_final
  by_cases hg : new.status = TxStatus.completed
      ∧ old.status ≠ TxStatus.completed
  · rw [if_pos hg]
    dsimp only
    by_cases hd : (s new.seller_id).debt_xs > 0
    · rw [if_pos hd]; exact setUser_other _ _ _ _ hj
    · rw [if_neg hd]; exact setUser_other _ _ _ _ hj
  · rw [if_neg hg]

theorem handle_debt_repayment_bonus (old new : TransactionRow)
    (s : LedgerState) (i : Nat) :
    ((handle_debt_repayment old new s) i).balance_bonus
      = (s i).balance_bonus := by
  unfold handle_debt_repayment
  by_cases hg : new.status = TxStatus.completed
      ∧ old.status ≠ TxStatus.completed
  · rw [if_pos hg]
    dsimp only
    by_cases hd : (s new.seller_id).debt_xs > 0
    · rw [if_pos hd]; exact setUser_bonus_frame _ _ _ (by rfl) i
    · rw [if_neg hd]; exact setUser_bonus_frame _ _ _ (by rfl) i
  · rw [if_neg hg]

theorem hs_final_bonus (old new : TransactionRow) (now : Int)
    (s : LedgerState) (i : Nat) :
    ((handle_seller_on_transaction_complete_final old new now s) i).balance_bonus
      = (s i).balance_bonus := by
  unfold handle_seller_on_transaction_complete_final
  by_cases hg : new.status = TxStatus.completed
      ∧ old.status ≠ TxStatus.completed
  · rw [if_pos hg]
    dsimp only
    by_cases hd : (s new.seller_id).debt_xs > 0
    · rw [if_pos hd]; exact setUser_bonus_frame _ _ _ (by rfl) i
    · rw [if_neg hd]; exact setUser_bonus_frame _ _ _ (by rfl) i
  · rw [if_neg hg]

theorem amortize_loan_on_sale_bonus (old new : TransactionRow)
    (s : LedgerState) (i : Nat) :
    ((amortize_loan_on_sale old new s) i).balance_bonus
      = (s i).balance_bonus := by
  unfold amortize_loan_on_sale
  by_cases hg : new.status = TxStatus.completed
      ∧ old.status ≠ TxStatus.completed
  · rw [if_pos hg]
    dsimp only
    refine Eq.trans (setUser_bonus_frame _ _ _ (by rfl) i) ?_
    by_cases hd : (s new.seller_id).debt_xs > 0
    · rw [if_pos hd]
      by_cases hr : new.amount > min new.amount (s new.seller_id).debt_xs
      · rw [if_pos hr]
        refine Eq.trans (setUser_bonus_frame _ _ _ (by rfl) i) ?_
        exact setUser_bonus_frame _ _ _ (by rfl) i
      · rw [if_neg hr]
        exact setUser_bonus_frame _ _ _ (by rfl) i
    · rw [if_neg hd]
      exact setUser_bonus_frame _ _ _ (by rfl) i
  · rw [if_neg hg]

theorem process_transaction_amortization_bonus (old new : TransactionRow)
    (s : LedgerState) (i : Nat) :
    ((process_transaction_amortization old new s) i).balance_bonus
      = (s i).balance_bonus := by
  unfold process_transaction_amortization
  by_cases hg : new.status = TxStatus.completed
      ∧ old.status = TxStatus.pending
  · rw [if_pos hg]
    exact setUser_bonus_frame _ _ _ (by rfl) i
  · rw [if_neg hg]

theorem amortize_loan_on_sale_buyer_debit (old new : TransactionRow)
    (s : LedgerState) (hbs : new.buyer_id ≠ new.seller_id)
    (hnew : new.status = TxStatus.completed)
    (hold : old.status ≠ TxStatus.completed) :
    ((amortize_loan_on_sale old new s) new.buyer_id).balance_xs
      = (s new.buyer_id).balance_xs - new.amount := by
  unfold amortize_loan_on_sale
  rw [if_pos ⟨hnew, hold⟩]
  dsimp only
  rw [setUser_same]
  dsimp only
  by_cases hd : (s new.seller_id).debt_xs > 0
  · rw [if_pos hd]
    by_cases hr : new.amount > min new.amount (s new.seller_id).debt_xs
    · rw [if_pos hr, setUser_other _ _ _ _ hbs, setUser_other _ _ _ _ hbs]
    · rw [if_neg hr, setUser_other _ _ _ _ hbs]
  · rw [if_neg hd, setUser_other _ _ _ _ hbs]

-- ===== C3 =====

/-- C3 counterexample: the settlement variant `amortize_loan_on_sale`
(unnamed part_000, lines 218-221; the same buyer `UPDATE` appears in
`20250101000000_initial_schema.sql`, lines 161-164) DOES debit the
buyer's spendable balance at settlement time: completing a 100.00 X$
transaction drives buyer 0 from 50.00 X$ to -50.00 X$. -/
theorem settlement_buyer_debit_counterexample :
    ((amortize_loan_on_sale txP txC sW3) 0).balance_xs = -5000
    ∧ (sW3 0).balance_xs = 5000 := by
  constructor <;> rfl

/-- C3 amended: in the two most recent settlement variants
(`handle_debt_repayment` of the latest schema and the consolidated
`handle_seller_on_transaction_complete`) settlement leaves the buyer's
row untouched, and no settlement variant — the buyer-debiting
`amortize_loan_on_sale` and `process_transaction_amortization`
included — ever changes any `balance_bonus`; the older variants,
however, additionally debit the buyer's spendable balance by the full
transaction amount whenever settlement fires. -/
theorem settlement_frame_amended (old new : TransactionRow) (now : Int)
    (s : LedgerState) (hbs : new.buyer_id ≠ new.seller_id) :
    (handle_debt_repayment old new s) new.buyer_id = s new.buyer_id
    ∧ (handle_seller_on_transaction_complete_final old new now s)
        new.buyer_id = s new.buyer_id
    ∧ (∀ i, ((handle_debt_repayment old new s) i).balance_bonus
        = (s i).balance_bonus)
    ∧ (∀ i,
        ((handle_seller_on_transaction_complete_final old new now s) i).balance_bonus
          = (s i).balance_bonus)
    ∧ (∀ i, ((amortize_loan_on_sale old new s) i).balance_bonus
        = (s i).balance_bonus)
    ∧ (∀ i, ((process_transaction_amortization old new s) i).balance_bonus
        = (s i).balance_bonus)
    ∧ (new.status = TxStatus.completed → old.status ≠ TxStatus.completed →
        ((amortize_loan_on_sale old new s) new.buyer_id).balance_xs
          = (s new.buyer_id).balance_xs - new.amount) :=
  ⟨handle_debt_repayment_frame old new s new.buyer_id hbs,
   hs_final_frame old new now s new.buyer_id hbs,
   handle_debt_repayment_bonus old new s,
   hs_final_bonus old new now s,
   amortize_loan_on_sale_bonus old new s,
   process_transaction_amortization_bonus old new s,
   fun hnew hold =>
     amortize_loan_on_sale_buyer_debit old new s hbs hnew hold⟩

/-- Witness for C3's amended theorem, at the Scenario-B fixture. -/
theorem settlement_frame_amended_witness :
    txC.buyer_id ≠ txC.seller_id
    ∧ (handle_debt_repayment txP txC sW3) txC.buyer_id
        = sW3 txC.buyer_id
    ∧ ((amortize_loan_on_sale txP txC sW3) 1).balance_bonus
        = (sW3 1).balance_bonus := by
  have h := settlement_frame_amended txP txC 0 sW3 (by decide)
  exact ⟨by decide, h.1, h.2.2.2.2.1 1⟩

-- ===== C4 =====

theorem grant_referral_bonus_noop_paid (rB fB : Int) (uid : Nat)
    (s : LedgerState) (h : (s uid).referral_bonus_paid = true) :
    grant_referral_bonus rB fB uid s = s := by
  unfold grant_referral_bonus
  rw [h]
  simp

/-- C4: for a user `uid` with `referral_bonus_paid = false` and
`referred_by = some rid` (a distinct account) and configured bonus
amounts, invoking `grant_referral_bonus` any `n ≥ 1` times equals
invoking it once, and the single invocation credits the referrer's
`balance_bonus` by exactly the referrer amount, the approved user's by
exactly the referee amount, and sets `referral_bonus_paid`. -/
theorem referral_bonus_paid_once (rB fB : Int) (uid rid : Nat)
    (s : LedgerState) (n : Nat)
    (hpaid : (s uid).referral_bonus_paid = false)
    (href : (s uid).referred_by = some rid)
    (hne : rid ≠ uid) (hn : 1 ≤ n) :
    (grant_referral_bonus rB fB uid)^[n] s = grant_referral_bonus rB fB uid s
    ∧ ((grant_referral_bonus rB fB uid s) rid).balance_bonus
        = (s rid).balance_bonus + rB
    ∧ ((grant_referral_bonus rB fB uid s) uid).balance_bonus
        = (s uid).balance_bonus + fB
    ∧ ((grant_referral_bonus rB fB uid s) uid).referral_bonus_paid
        = true := by
  have huid : uid ≠ rid := fun h => hne h.symm
  have hflag : ((grant_referral_bonus rB fB uid s) uid).referral_bonus_paid
      = true := by
    simp [grant_referral_bonus, hpaid, href, setUser]
  have hidem := grant_referral_bonus_noop_paid rB fB uid _ hflag
  have hiter : ∀ m : Nat,
      (grant_referral_bonus rB fB uid)^[m] (grant_referral_bonus rB fB uid s)
        = grant_referral_bonus rB fB uid s := by
    intro m
    induction m with
    | zero => rfl
    | succ k ih => rw [Function.iterate_succ_apply, hidem, ih]
  refine ⟨?_, ?_, ?_, hflag⟩
  · obtain ⟨m, rfl⟩ : ∃ m, n = m + 1 := ⟨n - 1, by omega⟩
    rw [Function.iterate_succ_apply, hiter]
  · simp [grant_referral_bonus, hpaid, href, setUser, hne, huid]
  · simp [grant_referral_bonus, hpaid, href, setUser, hne, huid]

/-- Witness for C4: Scenario D in cents (referrer bonus 5.00, referee
bonus 2.50), user 2 referred by user 3, two notifications. -/
theorem referral_bonus_paid_once_witness :
    ((sW4 2).referral_bonus_paid = false ∧ (sW4 2).referred_by = some 3
      ∧ (3 : Nat) ≠ 2 ∧ 1 ≤ 2)
    ∧ (grant_referral_bonus 500 250 2)^[2] sW4
        = grant_referral_bonus 500 250 2 sW4
    ∧ ((grant_referral_bonus 500 250 2 sW4) 3).balance_bonus
        = (sW4 3).balance_bonus + 500
    ∧ ((grant_referral_bonus 500 250 2 sW4) 2).balance_bonus
        = (sW4 2).balance_bonus + 250
    ∧ ((grant_referral_bonus 500 250 2 sW4) 2).referral_bonus_paid
        = true := by
  have h := referral_bonus_paid_once 500 250 2 3 sW4 2 (by decide)
    (by decide) (by decide) (by decide)
  exact ⟨⟨by decide, by decide, by decide, by decide⟩,
    h.1, h.2.1, h.2.2.1, h.2.2.2⟩

-- ===== C5 =====

/-- C5 counterexample: under the latest schema a completion request
makes the status `completed`, but `completed_at` stays `NULL`: the
`AFTER UPDATE` trigger `handle_debt_repayment` never writes it and
nothing else in the repository does. -/
theorem completed_at_counterexample :
    (complete_transaction_sch2 txP sW1).1.status = TxStatus.completed
    ∧ (complete_transaction_sch2 txP sW1).1.completed_at = none := by
  constructor <;> rfl

/-- C5 amended: only the `BEFORE INSERT OR UPDATE` settlement variant
(`handle_seller_on_transaction_complete` of the "Versão 2.0" script)
sets `completed_at` to the settlement instant whenever the row first
becomes `completed` — and it leaves the row unmodified whenever its
guard does not fire; the `AFTER`-trigger variants, the latest schema's
`handle_debt_repayment` included, never set `completed_at`. -/
theorem completed_at_amended (old : Option TransactionRow)
    (new : TransactionRow) (now : Int) (s : LedgerState)
    (hnew : new.status = TxStatus.completed)
    (hch : tg_status_changed old new = true) :
    (handle_seller_on_transaction_complete_v2 old new now s).1.completed_at
      = some now
    ∧ (∀ old2 new2 s2,
        ¬(new2.status = TxStatus.completed
          ∧ tg_status_changed old2 new2 = true) →
        (handle_seller_on_transaction_complete_v2 old2 new2 now s2).1
          = new2) := by
  constructor
  · unfold handle_seller_on_transaction_complete_v2
    rw [if_pos ⟨hnew, hch⟩]
  · intro old2 new2 s2 hg
    unfold handle_seller_on_transaction_complete_v2
    rw [if_neg hg]

/-- Witness for C5's amended theorem: completing the pending Scenario-B
row through the v2 trigger stamps `completed_at` with the instant. -/
theorem completed_at_amended_witness :
    (txC.status = TxStatus.completed
      ∧ tg_status_changed (some txP) txC = true)
    ∧ ((handle_seller_on_transaction_complete_v2 (some txP) txC 99 sW1).1).completed_at
        = some 99 := by
  have h := completed_at_amended (some txP) txC 99 sW1 (by decide) (by decide)
  exact ⟨⟨by decide, by decide⟩, h.1⟩

-- ===== C6 =====

/-- C6: a transaction whose buyer equals its seller is rejected by the
`buyer_seller_check` constraint with a validation error and nothing
stored; any successful creation preserves the invariant that every
stored transaction has distinct parties, so settlement — which only
processes stored rows — never sees a self-dealing transaction. -/
theorem self_dealing_rejected (uid b sl : Nat) (a a2 : Int)
    (v v2 : List Char) (db db2 : MarketDB) :
    create_transaction uid uid a v db
      = Except.error LedgerError.validationError
    ∧ (∀ db2', create_transaction b sl a2 v2 db2 = Except.ok db2' →
        (∀ t ∈ db2.txs, t.buyer_id ≠ t.seller_id) →
        ∀ t ∈ db2'.txs, t.buyer_id ≠ t.seller_id) := by
  constructor
  · simp [create_transaction]
  · intro db2' hok hwf t ht
    by_cases hbs : b = sl
    · rw [create_transaction, if_pos hbs] at hok
      exact absurd hok (by simp)
    · rw [create_transaction, if_neg hbs] at hok
      obtain rfl : db2' = { db2 with txs :=
          { buyer_id := b, seller_id := sl, amount := a2, voucher := v2,
            status := TxStatus.pending, completed_at := none }
          :: db2.txs } := by
        cases hok
        rfl
      rcases List.mem_cons.mp ht with h | h
      · subst h
        exact hbs
      · exact hwf t h

/-- Witness for C6: the self-dealing insert fails on the empty database,
and a well-formed insert keeps the invariant. -/
theorem self_dealing_rejected_witness :
    create_transaction 3 3 100 [] dbW
      = Except.error LedgerError.validationError
    ∧ (∀ t ∈ dbW1.txs, t.buyer_id ≠ t.seller_id) := by
  refine ⟨(self_dealing_rejected 3 0 1 10000 10000 [] [] dbW dbW).1, ?_⟩
  exact (self_dealing_rejected 3 0 1 10000 10000 [] [] dbW dbW).2 dbW1
    (by rfl) (by intro t ht; cases ht)

-- ===== C8 =====

/-- C8: settlement never drives the seller's debt negative.  Starting
from `outstandingDebt ≥ 0` and any positive amount, the latest trigger
`handle_debt_repayment` leaves the debt ≥ 0 — exactly because, when it
fires, the amount amortized is `min amount debt` — and so does the
`GREATEST(0, ...)` variant `process_transaction_amortization`. -/
theorem settlement_debt_nonneg (old new : TransactionRow) (s : LedgerState)
    (hD : 0 ≤ (s new.seller_id).debt_xs) (hA : 0 < new.amount) :
    0 ≤ ((handle_debt_repayment old new s) new.seller_id).debt_xs
    ∧ 0 ≤ ((process_transaction_amortization old new s)
            new.seller_id).debt_xs
    ∧ (new.status = TxStatus.completed → old.status ≠ TxStatus.completed →
        ((handle_debt_repayment old new s) new.seller_id).debt_xs
          = (s new.seller_id).debt_xs
            - min new.amount (s new.seller_id).debt_xs) := by
  refine ⟨?_, ?_, ?_⟩
  · unfold handle_debt_repayment
    by_cases hg : new.status = TxStatus.completed
        ∧ old.status ≠ TxStatus.completed
    · rw [if_pos hg]
      by_cases hd : (s new.seller_id).debt_xs > 0
      · simp only [if_pos hd, setUser_same]
        omega
      · simp only [if_neg hd, setUser_same]
        exact hD
    · rw [if_neg hg]
      exact hD
  · unfold process_transaction_amortization
    by_cases hg : new.status = TxStatus.completed
        ∧ old.status = TxStatus.pending
    · rw [if_pos hg]
      simp only [setUser_same]
      omega
    · rw [if_neg hg]
      exact hD
  · intro hnew hold
    unfold handle_debt_repayment
    rw [if_pos ⟨hnew, hold⟩]
    by_cases hd : (s new.seller_id).debt_xs > 0
    · simp only [if_pos hd, setUser_same]
    · simp only [if_neg hd, setUser_same]
      omega

/-- Witness for C8 at the Scenario-B fixture. -/
theorem settlement_debt_nonneg_witness :
    (0 ≤ (sW1 txC.seller_id).debt_xs ∧ 0 < txC.amount)
    ∧ 0 ≤ ((handle_debt_repayment txP txC sW1) txC.seller_id).debt_xs
    ∧ 0 ≤ ((process_transaction_amortization txP txC sW1)
            txC.seller_id).debt_xs := by
  have h := settlement_debt_nonneg txP txC sW1 (by decide) (by decide)
  exact ⟨⟨by decide, by decide⟩, h.1, h.2.1⟩

-- ===== C7 =====

theorem generate_unique_referral_code_not_mem
    {seeds existing : List (List Char)} {r : List Char}
    (h : generate_unique_referral_code seeds existing = some r) :
    r ∉ existing := by
  unfold generate_unique_referral_code at h
  have hp := List.find?_some h
  simpa using hp

/-- C7: assuming some seed along the way yields an unused candidate, the
generator returns a value absent from the uniqueness scope at the time
of its check (in particular it retries past pre-seeded collisions), and
sequential generation that inserts each result into the scope yields
pairwise-distinct values, all outside the initial scope. -/
theorem code_generator_returns_unused (seeds existing : List (List Char))
    (h : ∃ sd ∈ seeds, md5_candidate6 sd ∉ existing) :
    (∃ r, generate_unique_referral_code seeds existing = some r
      ∧ r ∉ existing)
    ∧ (∀ seedss codes, generate_codes_seq seedss existing = some codes →
        codes.Nodup ∧ ∀ c ∈ codes, c ∉ existing) := by
  constructor
  · obtain ⟨sd, hsd, hfree⟩ := h
    have hex : ∃ c, c ∈ seeds.map md5_candidate6
        ∧ (fun c => decide (c ∉ existing)) c = true :=
      ⟨md5_candidate6 sd, List.mem_map_of_mem _ hsd, by simpa using hfree⟩
    have hsome : ((seeds.map md5_candidate6).find?
        (fun c => decide (c ∉ existing))).isSome :=
      List.find?_isSome.mpr hex
    obtain ⟨r, hr⟩ := Option.isSome_iff_exists.mp hsome
    exact ⟨r, hr, generate_unique_referral_code_not_mem hr⟩
  · clear h
    intro seedss
    induction seedss generalizing existing with
    | nil =>
      intro codes hc
      obtain rfl : codes = [] := by
        simpa [generate_codes_seq] using hc.symm
      exact ⟨List.nodup_nil, by simp⟩
    | cons seeds0 rest ih =>
      intro codes hc
      rw [generate_codes_seq] at hc
      cases hg : generate_unique_referral_code seeds0 existing with
      | none => simp [hg] at hc
      | some c =>
        simp only [hg] at hc
        cases hrest : generate_codes_seq rest (c :: existing) with
        | none => simp [hrest] at hc
        | some cs =>
          simp only [hrest, Option.some.injEq] at hc
          subst hc
          have hcfree : c ∉ existing :=
            generate_unique_referral_code_not_mem hg
          obtain ⟨hnd, hall⟩ := ih (c :: existing) cs hrest
          refine ⟨List.nodup_cons.mpr ⟨?_, hnd⟩, ?_⟩
          · intro hccs
            exact (hall c hccs) (List.mem_cons_self _ _)
          · intro x hx
            rcases List.mem_cons.mp hx with rfl | hx2
            · exact hcfree
            · intro hxe
              exact (hall x hx2) (List.mem_cons_of_mem _ hxe)

/-- Witness for C7: the scope is pre-seeded with the first seed's
candidate `AAAAAA`, so the generator retries and returns `BBBBBB`,
which is not in the scope. -/
theorem code_generator_returns_unused_witness :
    (∃ sd ∈ seedsW, md5_candidate6 sd ∉ existingW)
    ∧ (∃ r, generate_unique_referral_code seedsW existingW = some r
        ∧ r ∉ existingW) := by
  have h := code_generator_returns_unused seedsW existingW (by decide)
  exact ⟨by decide, h.1⟩

-- ===== C9 =====

theorem hex_upper_alnum :
    ∀ c ∈ hex_lower, is_upper_alnum c.toUpper = true := by decide

theorem alphabet_upper_alnum :
    ∀ c ∈ referral_alphabet, is_upper_alnum c = true := by decide

/-- C9 counterexample: the referral-code trigger of the part_000 reset
script returns `XP-` followed by six lowercase hex digest characters;
the code has length 9, not 6-8, and contains a hyphen and lowercase
letters, so it is not a 6-8 character uppercase-alphanumeric string. -/
theorem code_shape_counterexample :
    ¬ (6 ≤ (generate_referral_code_xp md5_example).length
       ∧ (generate_referral_code_xp md5_example).length ≤ 8
       ∧ ∀ c ∈ generate_referral_code_xp md5_example,
           is_upper_alnum c = true) := by
  decide

/-- C9 amended: the looping generators do return codes of the configured
length over the uppercase alphanumeric alphabet — six uppercase hex
characters for `generate_unique_referral_code`, eight for the
`..._code8` variant (given 32-character lowercase-hex md5 seeds), and
eight alphabet characters for the shuffle-based part_004 generator —
but the part_000 trigger variant `generate_referral_code_xp` instead
returns `XP-` plus six lowercase hex characters (length 9, with a
hyphen), outside both the claimed length range and alphabet. -/
theorem code_shape_amended (seeds existing : List (List Char))
    (hseed : ∀ sd ∈ seeds, sd.length = 32 ∧ ∀ c ∈ sd, c ∈ hex_lower) :
    (∀ r, generate_unique_referral_code seeds existing = some r →
        r.length = 6 ∧ ∀ c ∈ r, is_upper_alnum c = true)
    ∧ (∀ r, generate_unique_referral_code8 seeds existing = some r →
        r.length = 8 ∧ ∀ c ∈ r, is_upper_alnum c = true)
    ∧ (∀ shuffles r,
        (∀ l ∈ shuffles, l.length = 36 ∧ ∀ c ∈ l, c ∈ referral_alphabet) →
        generate_referral_code_shuffled shuffles existing = some r →
        r.length = 8 ∧ ∀ c ∈ r, is_upper_alnum c = true) := by
  refine ⟨?_, ?_, ?_⟩
  · intro r hr
    unfold generate_unique_referral_code at hr
    obtain ⟨sd, hsd, rfl⟩ := List.mem_map.mp (List.mem_of_find?_eq_some hr)
    constructor
    · rw [md5_candidate6, List.length_map, List.length_take,
        (hseed sd hsd).1]
      decide
    · intro c hc
      obtain ⟨c0, hc0, rfl⟩ := List.mem_map.mp hc
      exact hex_upper_alnum c0
        ((hseed sd hsd).2 c0 (List.take_subset _ _ hc0))
  · intro r hr
    unfold generate_unique_referral_code8 at hr
    obtain ⟨sd, hsd, rfl⟩ := List.mem_map.mp (List.mem_of_find?_eq_some hr)
    constructor
    · rw [md5_candidate8, List.length_map, List.length_take,
        (hseed sd hsd).1]
      decide
    · intro c hc
      obtain ⟨c0, hc0, rfl⟩ := List.mem_map.mp hc
      exact hex_upper_alnum c0
        ((hseed sd hsd).2 c0 (List.take_subset _ _ hc0))
  · intro shuffles r hsh hr
    unfold generate_referral_code_shuffled at hr
    obtain ⟨l, hl, rfl⟩ := List.mem_map.mp (List.mem_of_find?_eq_some hr)
    constructor
    · rw [List.length_take, (hsh l hl).1]
      decide
    · intro c hc
      exact alphabet_upper_alnum c
        ((hsh l hl).2 c (List.take_subset _ _ hc))

/-- Witness for C9's amended theorem: the empty-string md5 digest seed
yields the six-character code `D41D8C`. -/
theorem code_shape_amended_witness :
    (∀ sd ∈ [md5_example], sd.length = 32 ∧ ∀ c ∈ sd, c ∈ hex_lower)
    ∧ (∀ r, generate_unique_referral_code [md5_example] [] = some r →
        r.length = 6 ∧ ∀ c ∈ r, is_upper_alnum c = true) := by
  have h := code_shape_amended [md5_example] [] (by decide)
  exact ⟨by decide, h.1⟩

-- ===== C10 =====

/-- C10: with `referral_bonus_paid = false` and no referrer, the issuer
changes nothing: no balance is credited and the flag stays `false` (the
flag assignment sits inside the referrer-exists branch). -/
theorem no_referrer_noop (rB fB : Int) (uid : Nat) (s : LedgerState)
    (hpaid : (s uid).referral_bonus_paid = false)
    (hnone : (s uid).referred_by = none) :
    grant_referral_bonus rB fB uid s = s
    ∧ ((grant_referral_bonus rB fB uid s) uid).referral_bonus_paid
        = false := by
  have h1 : grant_referral_bonus rB fB uid s = s := by
    unfold grant_referral_bonus
    rw [hpaid, hnone]
    simp
  exact ⟨h1, by rw [h1]; exact hpaid⟩

/-- Witness for C10: user 4 has no referrer; the issuer is a no-op. -/
theorem no_referrer_noop_witness :
    ((sW10 4).referral_bonus_paid = false ∧ (sW10 4).referred_by = none)
    ∧ grant_referral_bonus 500 250 4 sW10 = sW10 := by
  have h := no_referrer_noop 500 250 4 sW10 (by decide) (by decide)
  exact ⟨⟨by decide, by decide⟩, h.1⟩
